import Mathlib

/-!
# Verification of niri's blur rendering subsystem

Shallow embedding of `src/render_helpers/blur.rs` and
`src/render_helpers/blur/element.rs` (the `EffectsFramebuffers` per-output
state, the throttled optimized-blur refresh, the dual-Kawase pass loop, the
`Blur`/`BlurRenderElement` cache, uniform computation, opaque regions and the
TrueBlur expansion rectangle).

Modelling conventions:
* Wall-clock `Instant`/`Duration` values are rationals (seconds).  The code's
  `Duration::from_secs_f32(1. / fps)` is modelled as the exact rational
  `1 / fps`; `DEFAULT_BLUR_RERENDER_INTERVAL` (150 ms) is `3/20`.
* GPU textures are records carrying a texture id, a size, and a symbolic
  contents tag; shader passes and blits act on the contents tag.
* Fallible GPU operations (blur passes, the final blit) are driven by
  explicit success parameters, mirroring `Result`-returning Rust calls.
* `u64` counters that the source updates with `wrapping_add` are naturals
  reduced modulo `2^64` at the update, as in the source.
-/

namespace NiriBlur

/-- `f64::round` / `f32::round`: round half away from zero, as Rust does. -/
def rustRound (q : ℚ) : ℤ :=
  if 0 ≤ q then ⌊q + 1/2⌋ else ⌈q - 1/2⌉

/-- Rust's `CurrentBuffer` enum: which of the two ping-pong textures is
currently the sample source (`blur.rs`). -/
inductive CurrentBuffer where
  | normal
  | swapped
  deriving DecidableEq, Repr

namespace CurrentBuffer

/-- `CurrentBuffer::swap` (`blur.rs` lines 43–52). -/
def swap : CurrentBuffer → CurrentBuffer
  | .normal => .swapped
  | .swapped => .normal

end CurrentBuffer

/-- Direction of a single Kawase blur pass: the `down` or `up` shader. -/
inductive PassDir where
  | down
  | up
  deriving DecidableEq, Repr

/-- Symbolic contents of a GPU texture: freshly allocated, the scene rendered
by `render_elements`, or the output of one blur shader pass over a source. -/
inductive TexContents where
  | blank (n : ℕ)
  | scene (n : ℕ)
  | blurPass (dir : PassDir) (src : TexContents)
  deriving DecidableEq, Repr

/-- A `GlesTexture`: GL texture id, size in pixels, and symbolic contents. -/
structure GlesTexture where
  texId : ℕ
  width : ℤ
  height : ℤ
  contents : TexContents
  deriving DecidableEq, Repr

/-- Smithay's `Transform` enum for output orientation. -/
inductive Transform where
  | normal
  | rot90
  | rot180
  | rot270
  | flipped
  | flipped90
  | flipped180
  | flipped270
  deriving DecidableEq, Repr

/-- `niri_config::Blur` (the blur config), restricted to the fields the blur
renderer reads: `on`, `passes`, `radius.0`, `noise.0`, `ignore_alpha.0`.
(`on` is a Lean keyword, so that field is called `enabled` here.) -/
structure BlurConfig where
  enabled : Bool
  passes : ℕ
  radius : ℚ
  noise : ℚ
  ignore_alpha : ℚ
  deriving DecidableEq, Repr

/-- `EffectsFramebuffers` (`blur.rs` lines 56–80): per-output blur state. -/
structure EffectsFramebuffers where
  optimized_blur : GlesTexture
  optimized_blur_rerender_at : Option ℚ
  /-- `u64` generation counter, kept below `2^64`. -/
  optimized_blur_generation : ℕ
  effects : GlesTexture
  effects_swapped : GlesTexture
  current_buffer : CurrentBuffer
  output_size : ℤ × ℤ
  transform : Transform
  deriving DecidableEq, Repr

/-- `DEFAULT_BLUR_RERENDER_INTERVAL`: 150 ms, in seconds. -/
def defaultBlurRerenderInterval : ℚ := 3 / 20

/-- `get_rerender_at` (`blur.rs` lines 84–91), with `Instant::now()` passed
in explicitly as `now`. -/
def getRerenderAt (fps : Option ℚ) (now : ℚ) : Option ℚ :=
  let interval :=
    match fps with
    | some f => if 0 < f then 1 / f else defaultBlurRerenderInterval
    | none => defaultBlurRerenderInterval
  some (now + interval)

namespace EffectsFramebuffers

/-- `EffectsFramebuffers::set_dirty` (`blur.rs` lines 106–115), acting on the
state itself (the Rust code first looks the state up from the output). -/
def setDirty (fb : EffectsFramebuffers) (now : ℚ) : EffectsFramebuffers :=
  if fb.optimized_blur_rerender_at = none then
    { fb with optimized_blur_rerender_at := getRerenderAt none now }
  else
    fb

/-- `rerender_fps.filter(|fps| *fps > 0.)` (`blur.rs` line 203). -/
def filterFps : Option ℚ → Option ℚ
  | some f => if 0 < f then some f else none
  | none => none

/-- The throttle test at the top of `update_optimized_blur_buffer`
(`blur.rs` lines 202–215): `true` when the call returns `Ok(())` without any
GPU work.  `fps` is the already-positivity-filtered `rerender_fps`. -/
def throttleSkips (rerenderAt : Option ℚ) (now : ℚ) (fps : Option ℚ) : Bool :=
  match fps, rerenderAt with
  | some f, some next =>
    -- first match arm (`next > now + interval`) clamps and proceeds
    if next > now + 1 / f then false
    else if next > now then true
    else false
  | some _, none => false
  | none, some t => t > now
  | none, none => false

/-- `EffectsFramebuffers::buffers` (`blur.rs` lines 293–298): the
(sample, render) pair selected by `current_buffer`. -/
def buffers (fb : EffectsFramebuffers) : GlesTexture × GlesTexture :=
  match fb.current_buffer with
  | .normal => (fb.effects, fb.effects_swapped)
  | .swapped => (fb.effects_swapped, fb.effects)

/-- One `render_blur_pass_with_frame` call: the render buffer (per
`current_buffer`) receives the shader output over the sample buffer. -/
def renderPassInto (dir : PassDir) (fb : EffectsFramebuffers) :
    EffectsFramebuffers :=
  match fb.current_buffer with
  | .normal =>
    { fb with effects_swapped :=
        { fb.effects_swapped with contents := .blurPass dir fb.effects.contents } }
  | .swapped =>
    { fb with effects :=
        { fb.effects with contents := .blurPass dir fb.effects_swapped.contents } }

end EffectsFramebuffers

/-- Errors surfaced by the refresh cycle: a failed blur pass (with its global
index) or a failed final blit. -/
inductive BlurError where
  | passFailed (dir : PassDir) (i : ℕ)
  | blitFailed
  deriving DecidableEq, Repr

deriving instance DecidableEq for Except

/-- Result of one `update_optimized_blur_buffer` call: the new state, the
sequence of shader passes executed, the number of `current_buffer` swaps
performed, whether any GPU work happened, and the `Result` value. -/
structure UpdateOutcome where
  fb : EffectsFramebuffers
  events : List PassDir
  swaps : ℕ
  didGpuWork : Bool
  result : Except BlurError Unit
  deriving DecidableEq, Repr

/-- Result of one of the two pass loops: the state reached, the executed
passes, the number of `current_buffer` swaps, and the first error if any. -/
structure PassesOutcome where
  fb : EffectsFramebuffers
  events : List PassDir
  swaps : ℕ
  err : Option BlurError
  deriving DecidableEq, Repr

namespace EffectsFramebuffers

/-- One of the two `for _ in 0..config.passes` loops of
`update_optimized_blur_buffer` (`blur.rs` lines 243–254 and 261–272): `n`
passes with shader `dir`, each one rendering into the render buffer and then
swapping `current_buffer`.  `passOk i` tells whether the i-th
`render_blur_pass_with_frame` call (global index) succeeds; on the first
failure the loop aborts with the `?` operator. -/
def runBlurPasses (dir : PassDir) (passOk : ℕ → Bool) :
    ℕ → ℕ → EffectsFramebuffers → PassesOutcome
  | _, 0, fb => ⟨fb, [], 0, none⟩
  | base, n + 1, fb =>
    if passOk base then
      let fb1 := renderPassInto dir fb
      let fb2 := { fb1 with current_buffer := fb1.current_buffer.swap }
      let rest := runBlurPasses dir passOk (base + 1) n fb2
      ⟨rest.fb, dir :: rest.events, rest.swaps + 1, rest.err⟩
    else
      ⟨fb, [], 0, some (.passFailed dir base)⟩

/-- The GPU-work body of `update_optimized_blur_buffer` (`blur.rs` lines
243–289), run when the throttle does not skip: `passes` down passes, then
`passes` up passes (each followed by a `current_buffer` swap), then the blit
from `effects` into `optimized_blur` and the `wrapping_add(1)` on the `u64`
generation counter.  The first failing pass or a failing blit aborts with
that error. -/
def runRefreshCycle (fb1 : EffectsFramebuffers) (config : BlurConfig)
    (passOk : ℕ → Bool) (blitOk : Bool) : UpdateOutcome :=
  let down := runBlurPasses .down passOk 0 config.passes fb1
  match down.err with
  | some e => ⟨down.fb, down.events, down.swaps, true, .error e⟩
  | none =>
    let up := runBlurPasses .up passOk config.passes config.passes down.fb
    match up.err with
    | some e =>
      ⟨up.fb, down.events ++ up.events, down.swaps + up.swaps, true,
        .error e⟩
    | none =>
      if blitOk then
        let fb2 := { up.fb with
          optimized_blur :=
            { up.fb.optimized_blur with contents := up.fb.effects.contents },
          optimized_blur_generation :=
            (up.fb.optimized_blur_generation + 1) % 2 ^ 64 }
        ⟨fb2, down.events ++ up.events, down.swaps + up.swaps, true,
          .ok ()⟩
      else
        ⟨up.fb, down.events ++ up.events, down.swaps + up.swaps, true,
          .error .blitFailed⟩

/-- `EffectsFramebuffers::update_optimized_blur_buffer`
(`blur.rs` lines 194–290).  `now` is `Instant::now()` at entry,
`sceneContents` tags what `render_elements` draws into `effects`, `passOk`
and `blitOk` drive the fallible GPU calls: the throttle (including the
clamping first match arm), then the reset of `current_buffer` to `Normal`,
the deadline reschedule, and the full refresh cycle. -/
def updateOptimizedBlurBuffer (fb0 : EffectsFramebuffers) (now : ℚ)
    (config : BlurConfig) (rerenderFps : Option ℚ) (sceneContents : ℕ)
    (passOk : ℕ → Bool) (blitOk : Bool) : UpdateOutcome :=
  let fps : Option ℚ := filterFps rerenderFps
  if throttleSkips fb0.optimized_blur_rerender_at now fps then
    ⟨fb0, [], 0, false, .ok ()⟩
  else
    -- (the `Some(now)` store of the clamping arm is immediately overwritten
    -- by the unconditional reschedule on line 217, so it is not modelled)
    runRefreshCycle
      { fb0 with
        optimized_blur_rerender_at := getRerenderAt fps now,
        effects := { fb0.effects with contents := .scene sceneContents },
        current_buffer := CurrentBuffer.normal }
      config passOk blitOk

end EffectsFramebuffers

/-- `niri_config::CornerRadius`: the four corner radii (f32, modelled
as rationals). -/
structure CornerRadius where
  top_left : ℚ
  top_right : ℚ
  bottom_right : ℚ
  bottom_left : ℚ
  deriving DecidableEq, Repr

namespace CornerRadius

/-- `CornerRadius::scaled_by`. Modelled from the spec: the method lives in
the `niri-config` crate (not among the sampled sources); the spec's "(scaled)
corner radii" means each radius multiplied by the scale factor. -/
def scaledBy (cr : CornerRadius) (s : ℚ) : CornerRadius :=
  ⟨cr.top_left * s, cr.top_right * s, cr.bottom_right * s, cr.bottom_left * s⟩

end CornerRadius

/-- A rectangle with integer coordinates (`Rectangle<i32, _>`). -/
structure IRect where
  x : ℤ
  y : ℤ
  w : ℤ
  h : ℤ
  deriving DecidableEq, Repr

/-- A rectangle with rational coordinates (`Rectangle<f64, _>`). -/
structure QRect where
  x : ℚ
  y : ℚ
  w : ℚ
  h : ℚ
  deriving DecidableEq, Repr

/-- `Rectangle<i32, Logical>::to_physical_precise_round(scale)`: scale every
component and round it (`f64::round`) back to `i32`. -/
def IRect.toPhysicalPreciseRound (r : IRect) (scale : ℚ) : IRect :=
  ⟨rustRound (r.x * scale), rustRound (r.y * scale),
   rustRound (r.w * scale), rustRound (r.h * scale)⟩

/-- `Rectangle<f64, Logical>::to_physical_precise_round(scale)` as consumed
in `update_uniforms` (each rounded component is then used as an `f32`). -/
def QRect.toPhysicalPreciseRound (r : QRect) (scale : ℚ) : IRect :=
  ⟨rustRound (r.x * scale), rustRound (r.y * scale),
   rustRound (r.w * scale), rustRound (r.h * scale)⟩

/-- A 2-component vector (`glam::Vec2`), over exact rationals. -/
structure Vec2 where
  x : ℚ
  y : ℚ
  deriving DecidableEq, Repr

namespace Vec2

def sub (a b : Vec2) : Vec2 := ⟨a.x - b.x, a.y - b.y⟩

/-- Componentwise division, as `glam` implements `Div` for `Vec2`. -/
def div (a b : Vec2) : Vec2 := ⟨a.x / b.x, a.y / b.y⟩

def neg (a : Vec2) : Vec2 := ⟨-a.x, -a.y⟩

end Vec2

/-- A 3×3 matrix (`glam::Mat3`), row-major over exact rationals. -/
structure Mat3 where
  m00 : ℚ
  m01 : ℚ
  m02 : ℚ
  m10 : ℚ
  m11 : ℚ
  m12 : ℚ
  m20 : ℚ
  m21 : ℚ
  m22 : ℚ
  deriving DecidableEq, Repr

namespace Mat3

def identity : Mat3 := ⟨1, 0, 0, 0, 1, 0, 0, 0, 1⟩

/-- `Mat3::from_translation(v)`: the affine 2D translation. -/
def fromTranslation (v : Vec2) : Mat3 := ⟨1, 0, v.x, 0, 1, v.y, 0, 0, 1⟩

/-- `Mat3::from_scale(v)`: the affine 2D scale. -/
def fromScale (v : Vec2) : Mat3 := ⟨v.x, 0, 0, 0, v.y, 0, 0, 0, 1⟩

/-- Matrix product (`a * b` in glam: apply `b` first). -/
def mul (a b : Mat3) : Mat3 :=
  ⟨a.m00 * b.m00 + a.m01 * b.m10 + a.m02 * b.m20,
   a.m00 * b.m01 + a.m01 * b.m11 + a.m02 * b.m21,
   a.m00 * b.m02 + a.m01 * b.m12 + a.m02 * b.m22,
   a.m10 * b.m00 + a.m11 * b.m10 + a.m12 * b.m20,
   a.m10 * b.m01 + a.m11 * b.m11 + a.m12 * b.m21,
   a.m10 * b.m02 + a.m11 * b.m12 + a.m12 * b.m22,
   a.m20 * b.m00 + a.m21 * b.m10 + a.m22 * b.m20,
   a.m20 * b.m01 + a.m21 * b.m11 + a.m22 * b.m21,
   a.m20 * b.m02 + a.m21 * b.m12 + a.m22 * b.m22⟩

end Mat3

/-- The value carried by one shader `Uniform`. -/
inductive UniformValue where
  | float (x : ℚ)
  | floatVec2 (a b : ℚ)
  | floatVec4 (a b c d : ℚ)
  | int (n : ℤ)
  | matrix (m : Mat3)
  deriving DecidableEq, Repr

/-- A named shader uniform (`smithay::...::Uniform`). -/
structure Uniform where
  name : String
  value : UniformValue
  deriving DecidableEq, Repr

/-- `BlurRenderElement::update_uniforms` (`element.rs` lines 319–364):
the uniform set computed from the cached geometry, the config and the
presence of the alpha-ignore texture.  `transform` is hardcoded to
`Transform::Normal` in the source, so `transform_matrix` is
`T(0.5)·I·T(-0.5)`; the whole chain is translated verbatim. -/
def computeUniforms (sample_area : IRect) (scale : ℚ) (geometry : QRect)
    (corner_radius : CornerRadius) (config : BlurConfig)
    (alphaTexPresent : Bool) (outputSize : ℤ × ℤ) : List Uniform :=
  let elem_geo := sample_area.toPhysicalPreciseRound scale
  let elem_geo_loc : Vec2 := ⟨(elem_geo.x : ℚ), (elem_geo.y : ℚ)⟩
  let elem_geo_size : Vec2 := ⟨(elem_geo.w : ℚ), (elem_geo.h : ℚ)⟩
  let view_src := sample_area
  let buf_size : Vec2 :=
    ⟨(outputSize.1 : ℚ) / scale, (outputSize.2 : ℚ) / scale⟩
  let geo := geometry.toPhysicalPreciseRound scale
  let geo_loc : Vec2 := ⟨(geo.x : ℚ), (geo.y : ℚ)⟩
  let geo_size : Vec2 := ⟨(geo.w : ℚ), (geo.h : ℚ)⟩
  let src_loc : Vec2 := ⟨(view_src.x : ℚ), (view_src.y : ℚ)⟩
  let src_size : Vec2 := ⟨(view_src.w : ℚ), (view_src.h : ℚ)⟩
  let transform_matrix :=
    (Mat3.fromTranslation ⟨1/2, 1/2⟩).mul
      (Mat3.identity.mul (Mat3.fromTranslation ⟨-(1/2), -(1/2)⟩))
  let input_to_geo :=
    ((((transform_matrix.mul
          (Mat3.fromScale (elem_geo_size.div geo_size))).mul
         (Mat3.fromTranslation ((elem_geo_loc.sub geo_loc).div elem_geo_size))).mul
        (Mat3.fromScale (buf_size.div src_size))).mul
       (Mat3.fromTranslation (src_loc.div buf_size).neg))
  [⟨"corner_radius",
     .floatVec4 corner_radius.top_left corner_radius.top_right
       corner_radius.bottom_right corner_radius.bottom_left⟩,
   ⟨"geo_size", .floatVec2 geo_size.x geo_size.y⟩,
   ⟨"niri_scale", .float scale⟩,
   ⟨"noise", .float config.noise⟩,
   ⟨"input_to_geo", .matrix input_to_geo⟩,
   ⟨"ignore_alpha",
     .float (if alphaTexPresent then config.ignore_alpha else 0)⟩,
   ⟨"alpha_tex", .int (if alphaTexPresent then 1 else 0)⟩]

/-- `BlurVariant` (`element.rs` lines 30–43).  The `True` variant's shared
`fx_buffers` handle is not represented (it is only dereferenced at draw
time); its private texture, captured config and `rerender_at` timer are. -/
inductive BlurVariant where
  | optimized (texture : GlesTexture)
  | trueBlur (texture : GlesTexture) (config : BlurConfig)
      (rerender_at : Option ℚ)
  deriving DecidableEq, Repr

namespace BlurVariant

/-- `matches!(v, BlurVariant::True { .. })`. -/
def isTrue : BlurVariant → Bool
  | .optimized _ => false
  | .trueBlur _ _ _ => true

end BlurVariant

/-- `BlurRenderElement` (`element.rs` lines 267–278).  The smithay
`CommitCounter` is modelled as an unbounded natural: its wrapping `usize`
arithmetic lives in the smithay library, and only increments and equality
of nearby values are consumed here. -/
structure BlurRenderElement where
  id : ℕ
  uniforms : List Uniform
  sample_area : IRect
  alpha_tex : Option GlesTexture
  scale : ℚ
  commit : ℕ
  corner_radius : CornerRadius
  geometry : QRect
  variant : BlurVariant
  render_loc : ℚ × ℚ
  deriving DecidableEq, Repr

namespace BlurRenderElement

/-- `BlurRenderElement::new` (`element.rs` lines 290–317): fresh id, zero
commit counter, uniforms computed immediately. -/
def new (outputSize : ℤ × ℤ) (sample_area : IRect)
    (corner_radius : CornerRadius) (scale : ℚ) (config : BlurConfig)
    (geometry : QRect) (alpha_tex : Option GlesTexture)
    (variant : BlurVariant) (render_loc : ℚ × ℚ) (freshId : ℕ) :
    BlurRenderElement :=
  { id := freshId
    uniforms := computeUniforms sample_area scale geometry corner_radius
      config alpha_tex.isSome outputSize
    sample_area := sample_area
    alpha_tex := alpha_tex
    scale := scale
    commit := 0
    corner_radius := corner_radius
    geometry := geometry
    variant := variant
    render_loc := render_loc }

/-- `Element::geometry` for `BlurRenderElement` (`element.rs` lines
418–426): location is `render_loc` precise-rounded to physical, size is the
`sample_area` size precise-rounded to physical.  No expansion. -/
def elementGeometry (e : BlurRenderElement) (scale : ℚ) : IRect :=
  ⟨rustRound (e.render_loc.1 * scale), rustRound (e.render_loc.2 * scale),
   rustRound ((e.sample_area.w : ℚ) * scale),
   rustRound ((e.sample_area.h : ℚ) * scale)⟩

/-- `Element::opaque_regions` for `BlurRenderElement` (`element.rs` lines
392–416): empty when an alpha-ignore texture is present or the variant is
`True`; otherwise one rectangle located at `(⌈top_left⌉, ⌈top_left⌉)` whose
size is the element geometry size shrunk by twice the ceiling of the largest
scaled corner radius. -/
def opaqueRegions (e : BlurRenderElement) (scale : ℚ) : List IRect :=
  if e.alpha_tex.isSome || e.variant.isTrue then
    []
  else
    let geometry := e.elementGeometry scale
    let cr := e.corner_radius.scaledBy scale
    let largest :=
      max (max (max cr.top_left cr.top_right) cr.bottom_right) cr.bottom_left
    [⟨⌈cr.top_left⌉, ⌈cr.top_left⌉,
      geometry.w - 2 * ⌈largest⌉, geometry.h - 2 * ⌈largest⌉⟩]

end BlurRenderElement

/-- The expanded destination rectangle of `get_main_buffer_blur`
(`blur.rs` lines 335–342): the region actually blurred for a TrueBlur
element.  `size = ⌈2^(passes+1) · radius⌉`; the location moves by
`size·8` on each axis (`upscale(8)`) and the extent grows by `size·16`
(`upscale(16)`). -/
def dstExpanded (config : BlurConfig) (dst : IRect) : IRect :=
  let size : ℤ := ⌈(2 ^ (config.passes + 1) : ℚ) * config.radius⌉
  ⟨dst.x - size * 8, dst.y - size * 8, dst.w + size * 16, dst.h + size * 16⟩

/-- The `Blur` cache struct (`element.rs` lines 67–73).  The
`commit_tracker` field is not represented: `Blur::render` never reads it. -/
structure BlurState where
  config : BlurConfig
  inner : Option BlurRenderElement
  alpha_tex : Option GlesTexture
  deriving DecidableEq, Repr

namespace BlurState

/-- `variant_needs_rerender` (`element.rs` lines 207–216): an Optimized
variant whose cached texture size differs from the output size, or a True
variant whose private `rerender_at` deadline is unset or elapsed. -/
def variantNeedsRerender (v : BlurVariant) (fx : EffectsFramebuffers)
    (now : ℚ) : Bool :=
  match v with
  | .optimized texture =>
    texture.width ≠ fx.output_size.1 || texture.height ≠ fx.output_size.2
  | .trueBlur _ _ rerender_at =>
    match rerender_at with
    | none => true
    | some r => r < now

/-- `variant_needs_reconfigure` (`element.rs` lines 218–223): an Optimized
variant whose cached texture id is no longer the output's `optimized_blur`
texture id. -/
def variantNeedsReconfigure (v : BlurVariant) (fx : EffectsFramebuffers) :
    Bool :=
  match v with
  | .optimized texture => texture.texId ≠ fx.optimized_blur.texId
  | .trueBlur _ _ _ => false

/-- The effective TrueBlur request after the rotated-output downgrade
(`element.rs` lines 140–146): on any transform other than `Normal` or
`Flipped180` — in particular 90°/270° rotations — `true_blur` is forced to
`false`. -/
def effectiveTrueBlur (fx : EffectsFramebuffers) (true_blur : Bool) : Bool :=
  if fx.transform = .normal || fx.transform = .flipped180 then true_blur
  else false

/-- The `tex_buffer()` closure of `Blur::render` (`element.rs` lines
148–155): allocate a private texture sized like the effects buffers;
`allocOk` drives the fallible GL allocation and `freshTexId` is the fresh
GL texture id. -/
def texBuffer (fx : EffectsFramebuffers) (allocOk : Bool)
    (freshTexId : ℕ) : Option GlesTexture :=
  if allocOk then
    some ⟨freshTexId, fx.effects.width, fx.effects.height, .blank 0⟩
  else none

/-- The variant constructed for an effective request `tb` (the
`if true_blur { BlurVariant::True { .. } } else { BlurVariant::Optimized
{ .. } }` expressions of `element.rs` lines 168–179 and 189–200): a True
variant needs the private texture allocation; an Optimized variant clones
the output's `optimized_blur` handle. -/
def mkVariant (b : BlurState) (fx : EffectsFramebuffers) (tb : Bool)
    (allocOk : Bool) (freshTexId : ℕ) : Option BlurVariant :=
  if tb then
    (texBuffer fx allocOk freshTexId).map (fun t => .trueBlur t b.config none)
  else
    some (.optimized fx.optimized_blur)

/-- The cached-element comparison tail of `Blur::render` (`element.rs`
lines 205–263), after any variant switch produced `inner1`: if nothing
about the geometry changed and the variant needs no reconfiguration, return
the cached element, damaging it only when the variant needs a rerender;
otherwise reset the True timer / refresh the Optimized texture handle,
update the cached fields (`corner_radius` is *not* reassigned in the
source), force damage and recompute the uniforms. -/
def renderCompare (b : BlurState) (fx : EffectsFramebuffers) (now : ℚ)
    (sample_area : IRect) (corner_radius : CornerRadius) (scale : ℚ)
    (geometry : QRect) (render_loc : ℚ × ℚ) (inner1 : BlurRenderElement) :
    Option BlurRenderElement × BlurState :=
  let needsRerender := variantNeedsRerender inner1.variant fx now
  let needsReconfigure := variantNeedsReconfigure inner1.variant fx
  if inner1.sample_area = sample_area && inner1.geometry = geometry
      && inner1.scale = scale && inner1.corner_radius = corner_radius
      && inner1.render_loc = render_loc && !needsReconfigure then
    let inner2 :=
      if needsRerender then { inner1 with commit := inner1.commit + 1 }
      else inner1
    (some inner2, { b with inner := some inner2 })
  else
    let inner2 :=
      match inner1.variant with
      | .trueBlur t c _ => { inner1 with variant := .trueBlur t c none }
      | .optimized _ =>
        { inner1 with variant := .optimized fx.optimized_blur }
    let inner3 := { inner2 with
      render_loc := render_loc
      sample_area := sample_area
      alpha_tex := b.alpha_tex
      scale := scale
      geometry := geometry
      commit := inner2.commit + 1 }
    let inner4 := { inner3 with
      uniforms := computeUniforms sample_area scale geometry
        inner3.corner_radius b.config b.alpha_tex.isSome fx.output_size }
    (some inner4, { b with inner := some inner4 })

/-- `Blur::render` (`element.rs` lines 125–263).  `now` is wall-clock time
for the True-variant deadline test, `allocOk` drives the fallible
`tex_buffer()` allocation, `freshId`/`freshTexId` stand for the fresh
`Id::new()` and GL texture id.  Returns the produced element (None when
blur is off or the True-texture allocation fails) and the updated cache. -/
def render (b : BlurState) (fx : EffectsFramebuffers) (now : ℚ)
    (sample_area : IRect) (corner_radius : CornerRadius) (scale : ℚ)
    (geometry : QRect) (true_blur : Bool) (render_loc : ℚ × ℚ)
    (allocOk : Bool) (freshId freshTexId : ℕ) :
    Option BlurRenderElement × BlurState :=
  if !b.config.enabled || b.config.passes = 0 || b.config.radius = 0 then
    (none, b)
  else
    -- FIXME in source: true blur is broken on 90/270 transformed monitors
    let tb := effectiveTrueBlur fx true_blur
    match b.inner with
    | none =>
      match mkVariant b fx tb allocOk freshTexId with
      | none => (none, b)
      | some v =>
        let elem := BlurRenderElement.new fx.output_size sample_area
          corner_radius scale b.config geometry b.alpha_tex v render_loc
          freshId
        (some elem, { b with inner := some elem })
    | some inner0 =>
      -- variant switch on a kind mismatch (`element.rs` lines 188–203)
      match (if tb ≠ inner0.variant.isTrue then
          (mkVariant b fx tb allocOk freshTexId).map fun v =>
            { inner0 with variant := v, commit := inner0.commit + 1 }
        else some inner0) with
      | none => (none, b)
      | some inner1 =>
        renderCompare b fx now sample_area corner_radius scale geometry
          render_loc inner1

end BlurState

/-! ### Concrete sample states used by witnesses and counterexamples -/

/-- A sample per-output state: 1920×1080, untransformed, no pending
deadline, generation 0. -/
def exFb : EffectsFramebuffers where
  optimized_blur := ⟨10, 1920, 1080, .blank 0⟩
  optimized_blur_rerender_at := none
  optimized_blur_generation := 0
  effects := ⟨11, 1920, 1080, .blank 1⟩
  effects_swapped := ⟨12, 1920, 1080, .blank 2⟩
  current_buffer := .normal
  output_size := (1920, 1080)
  transform := .normal

/-- `exFb` with a 90°-rotated output transform. -/
def exFbRot90 : EffectsFramebuffers := { exFb with transform := .rot90 }

/-- A sample blur config: enabled, 2 passes, radius 10. -/
def exConfig : BlurConfig := ⟨true, 2, 10, 0, 1/5⟩

/-- A cached Optimized-variant element consistent with `exFb` and
`exConfig`: texture handle/size matching `exFb.optimized_blur`. -/
def exInner : BlurRenderElement :=
  BlurRenderElement.new exFb.output_size ⟨0, 0, 200, 100⟩ ⟨4, 4, 4, 4⟩ 2
    exConfig ⟨0, 0, 200, 100⟩ none (.optimized exFb.optimized_blur) (0, 0) 7

/-- A `Blur` cache holding `exInner`. -/
def exBlur : BlurState := ⟨exConfig, some exInner, none⟩

/-- An Optimized element with unequal corner radii (top-left 0, others 10),
used to exercise `opaque_regions`. -/
def exElemCorners : BlurRenderElement where
  id := 0
  uniforms := []
  sample_area := ⟨0, 0, 100, 100⟩
  alpha_tex := none
  scale := 1
  commit := 0
  corner_radius := ⟨0, 10, 10, 10⟩
  geometry := ⟨0, 0, 100, 100⟩
  variant := .optimized ⟨10, 1920, 1080, .blank 0⟩
  render_loc := (0, 0)

/-- A True-variant element, used for the empty-opaque-regions case. -/
def exElemTrue : BlurRenderElement :=
  { exElemCorners with variant := .trueBlur ⟨13, 1920, 1080, .blank 3⟩ exConfig none }

/-! ### Helper lemmas -/

namespace CurrentBuffer

theorem swap_swap (cb : CurrentBuffer) : cb.swap.swap = cb := by
  cases cb <;> rfl

end CurrentBuffer

namespace EffectsFramebuffers

theorem renderPassInto_optimized_blur (dir : PassDir)
    (fb : EffectsFramebuffers) :
    (renderPassInto dir fb).optimized_blur = fb.optimized_blur := by
  cases h : fb.current_buffer <;> simp [renderPassInto, h]

theorem renderPassInto_rerender_at (dir : PassDir)
    (fb : EffectsFramebuffers) :
    (renderPassInto dir fb).optimized_blur_rerender_at =
      fb.optimized_blur_rerender_at := by
  cases h : fb.current_buffer <;> simp [renderPassInto, h]

theorem renderPassInto_generation (dir : PassDir)
    (fb : EffectsFramebuffers) :
    (renderPassInto dir fb).optimized_blur_generation =
      fb.optimized_blur_generation := by
  cases h : fb.current_buffer <;> simp [renderPassInto, h]

theorem renderPassInto_current_buffer (dir : PassDir)
    (fb : EffectsFramebuffers) :
    (renderPassInto dir fb).current_buffer = fb.current_buffer := by
  cases h : fb.current_buffer <;> simp [renderPassInto, h]

/-- The pass loop never touches the optimized texture, the generation
counter or the rerender deadline. -/
theorem runBlurPasses_preserved (dir : PassDir) (passOk : ℕ → Bool)
    (n : ℕ) : ∀ (base : ℕ) (fb : EffectsFramebuffers),
    (runBlurPasses dir passOk base n fb).fb.optimized_blur =
        fb.optimized_blur ∧
      (runBlurPasses dir passOk base n fb).fb.optimized_blur_generation =
        fb.optimized_blur_generation ∧
      (runBlurPasses dir passOk base n fb).fb.optimized_blur_rerender_at =
        fb.optimized_blur_rerender_at := by
  induction n with
  | zero => intro base fb; exact ⟨rfl, rfl, rfl⟩
  | succ n ih =>
    intro base fb
    by_cases h : passOk base
    · obtain ⟨h1, h2, h3⟩ := ih (base + 1)
        { renderPassInto dir fb with
          current_buffer := (renderPassInto dir fb).current_buffer.swap }
      simp only [runBlurPasses, h, if_true]
      refine ⟨?_, ?_, ?_⟩
      · rw [h1]; exact renderPassInto_optimized_blur dir fb
      · rw [h2]; exact renderPassInto_generation dir fb
      · rw [h3]; exact renderPassInto_rerender_at dir fb
    · simp only [runBlurPasses, h, if_false]
      exact ⟨rfl, rfl, rfl⟩

/-- When every pass call succeeds, the loop executes all `n` passes with
the given shader, performs `n` swaps, reports no error, and toggles
`current_buffer` exactly when `n` is odd. -/
theorem runBlurPasses_all_ok (dir : PassDir) (passOk : ℕ → Bool)
    (hok : ∀ i, passOk i = true) (n : ℕ) :
    ∀ (base : ℕ) (fb : EffectsFramebuffers),
    (runBlurPasses dir passOk base n fb).events = List.replicate n dir ∧
      (runBlurPasses dir passOk base n fb).swaps = n ∧
      (runBlurPasses dir passOk base n fb).err = none ∧
      (runBlurPasses dir passOk base n fb).fb.current_buffer =
        (if n % 2 = 0 then fb.current_buffer else fb.current_buffer.swap) := by
  induction n with
  | zero => intro base fb; exact ⟨rfl, rfl, rfl, rfl⟩
  | succ n ih =>
    intro base fb
    obtain ⟨h1, h2, h3, h4⟩ := ih (base + 1)
      { renderPassInto dir fb with
        current_buffer := (renderPassInto dir fb).current_buffer.swap }
    simp only [runBlurPasses, hok base, if_true]
    refine ⟨by rw [h1]; rfl, by rw [h2], h3, ?_⟩
    rw [h4]
    simp only [renderPassInto_current_buffer]
    rcases Nat.even_or_odd n with he | ho
    · have hn : n % 2 = 0 := Nat.even_iff.mp he
      have hn1 : (n + 1) % 2 ≠ 0 := by omega
      simp [hn, hn1]
    · have hn : n % 2 ≠ 0 := by
        have := Nat.odd_iff.mp ho; omega
      have hn1 : (n + 1) % 2 = 0 := by
        have := Nat.odd_iff.mp ho; omega
      simp [hn, hn1, CurrentBuffer.swap_swap]

/-- The loop reports no error exactly when every pass call in its index
range succeeds. -/
theorem runBlurPasses_err_none_iff (dir : PassDir) (passOk : ℕ → Bool)
    (n : ℕ) : ∀ (base : ℕ) (fb : EffectsFramebuffers),
    ((runBlurPasses dir passOk base n fb).err = none ↔
      ∀ i, base ≤ i → i < base + n → passOk i = true) := by
  induction n with
  | zero =>
    intro base fb
    simp only [runBlurPasses]
    constructor
    · intro _ i h1 h2; omega
    · intro _; trivial
  | succ n ih =>
    intro base fb
    by_cases h : passOk base
    · simp only [runBlurPasses, h, if_true]
      rw [ih (base + 1)]
      constructor
      · intro hall i hi1 hi2
        rcases Nat.eq_or_lt_of_le hi1 with rfl | hlt
        · exact h
        · exact hall i hlt (by omega)
      · intro hall i hi1 hi2
        exact hall i (by omega) (by omega)
    · simp only [runBlurPasses, h, if_false]
      constructor
      · intro hc; exact absurd hc (by simp)
      · intro hall
        exact absurd (hall base le_rfl (by omega)) (by simpa using h)

/-- Every branch of the refresh cycle reports GPU work. -/
theorem runRefreshCycle_didGpuWork (fb : EffectsFramebuffers)
    (config : BlurConfig) (passOk : ℕ → Bool) (blitOk : Bool) :
    (runRefreshCycle fb config passOk blitOk).didGpuWork = true := by
  simp only [runRefreshCycle]
  split
  · rfl
  · split
    · rfl
    · split <;> rfl

/-- The refresh cycle leaves the rerender deadline unchanged (it was
already rescheduled before the cycle starts). -/
theorem runRefreshCycle_rerender_at (fb : EffectsFramebuffers)
    (config : BlurConfig) (passOk : ℕ → Bool) (blitOk : Bool) :
    (runRefreshCycle fb config passOk blitOk).fb.optimized_blur_rerender_at =
      fb.optimized_blur_rerender_at := by
  obtain ⟨-, -, hd⟩ := runBlurPasses_preserved .down passOk config.passes 0 fb
  obtain ⟨-, -, hu⟩ := runBlurPasses_preserved .up passOk config.passes
    config.passes (runBlurPasses .down passOk 0 config.passes fb).fb
  simp only [runRefreshCycle]
  split
  · exact hd
  · split
    · exact hu.trans hd
    · split
      · exact hu.trans hd
      · exact hu.trans hd

/-- A call that the throttle does not skip reduces to the refresh cycle on
the rescheduled state. -/
theorem updateOptimizedBlurBuffer_not_skipped (fb0 : EffectsFramebuffers)
    (now : ℚ) (config : BlurConfig) (rerenderFps : Option ℚ)
    (sceneContents : ℕ) (passOk : ℕ → Bool) (blitOk : Bool)
    (hskip : throttleSkips fb0.optimized_blur_rerender_at now
      (filterFps rerenderFps) = false) :
    updateOptimizedBlurBuffer fb0 now config rerenderFps sceneContents
        passOk blitOk =
      runRefreshCycle
        { fb0 with
          optimized_blur_rerender_at :=
            getRerenderAt (filterFps rerenderFps) now,
          effects := { fb0.effects with contents := .scene sceneContents },
          current_buffer := CurrentBuffer.normal }
        config passOk blitOk := by
  simp only [updateOptimizedBlurBuffer, hskip, Bool.false_eq_true, if_false]

/-- A call that the throttle skips returns `Ok(())` untouched. -/
theorem updateOptimizedBlurBuffer_skipped (fb0 : EffectsFramebuffers)
    (now : ℚ) (config : BlurConfig) (rerenderFps : Option ℚ)
    (sceneContents : ℕ) (passOk : ℕ → Bool) (blitOk : Bool)
    (hskip : throttleSkips fb0.optimized_blur_rerender_at now
      (filterFps rerenderFps) = true) :
    updateOptimizedBlurBuffer fb0 now config rerenderFps sceneContents
        passOk blitOk = ⟨fb0, [], 0, false, .ok ()⟩ := by
  simp only [updateOptimizedBlurBuffer, hskip, if_true]

/-- When every pass succeeds, the refresh cycle executes all down passes
then all up passes, swaps `2·passes` times, and returns `current_buffer`
to `Normal`. -/
theorem runRefreshCycle_all_ok (fb : EffectsFramebuffers)
    (config : BlurConfig) (passOk : ℕ → Bool) (blitOk : Bool)
    (hok : ∀ i, passOk i = true)
    (hcb : fb.current_buffer = CurrentBuffer.normal) :
    (runRefreshCycle fb config passOk blitOk).events =
        List.replicate config.passes .down ++
          List.replicate config.passes .up ∧
      (runRefreshCycle fb config passOk blitOk).swaps = 2 * config.passes ∧
      (runRefreshCycle fb config passOk blitOk).fb.current_buffer =
        CurrentBuffer.normal := by
  obtain ⟨hde, hds, hderr, hdcb⟩ :=
    runBlurPasses_all_ok .down passOk hok config.passes 0 fb
  obtain ⟨hue, hus, huerr, hucb⟩ :=
    runBlurPasses_all_ok .up passOk hok config.passes config.passes
      (runBlurPasses .down passOk 0 config.passes fb).fb
  have hcb2 : (runBlurPasses .up passOk config.passes config.passes
      (runBlurPasses .down passOk 0 config.passes fb).fb).fb.current_buffer =
      CurrentBuffer.normal := by
    rw [hucb, hdcb, hcb]
    by_cases hn : config.passes % 2 = 0 <;>
      simp [hn, CurrentBuffer.swap]
  simp only [runRefreshCycle, hderr, huerr]
  refine ⟨?_, ?_, ?_⟩
  · split <;> simp [hde, hue]
  · split <;> (simp [hds, hus]; omega)
  · split <;> simp [hcb2]

end EffectsFramebuffers

open EffectsFramebuffers in
/-- **C1.** For every pass count `N ≥ 1`, a call to
`update_optimized_blur_buffer` that the throttle does not skip performs
exactly `N` downscale passes followed by `N` upscale passes, hence exactly
`2N` swaps of `current_buffer`, and `current_buffer` after the call equals
its value before the call.  (`current_buffer = Normal` before the call is
the program invariant: it holds at initialization and after every blur
operation, each of which performs an even number of swaps from `Normal`.) -/
theorem claim_C1_full_refresh_pass_structure (fb0 : EffectsFramebuffers)
    (now : ℚ) (config : BlurConfig) (rerenderFps : Option ℚ) (scene : ℕ)
    (passOk : ℕ → Bool) (blitOk : Bool)
    (hskip : throttleSkips fb0.optimized_blur_rerender_at now
      (filterFps rerenderFps) = false)
    (hcb : fb0.current_buffer = CurrentBuffer.normal)
    (hN : 1 ≤ config.passes)
    (hok : ∀ i, passOk i = true) :
    (updateOptimizedBlurBuffer fb0 now config rerenderFps scene passOk
        blitOk).events =
        List.replicate config.passes .down ++
          List.replicate config.passes .up ∧
      (updateOptimizedBlurBuffer fb0 now config rerenderFps scene passOk
        blitOk).swaps = 2 * config.passes ∧
      (updateOptimizedBlurBuffer fb0 now config rerenderFps scene passOk
        blitOk).fb.current_buffer = fb0.current_buffer := by
  rw [updateOptimizedBlurBuffer_not_skipped fb0 now config rerenderFps scene
    passOk blitOk hskip, hcb]
  exact runRefreshCycle_all_ok _ config passOk blitOk hok rfl

open EffectsFramebuffers in
/-- Witness for C1 at a concrete state: 2 passes on `exFb`. -/
theorem claim_C1_full_refresh_pass_structure_witness :
    (updateOptimizedBlurBuffer exFb 0 exConfig none 5 (fun _ => true)
        true).events =
        List.replicate exConfig.passes .down ++
          List.replicate exConfig.passes .up ∧
      (updateOptimizedBlurBuffer exFb 0 exConfig none 5 (fun _ => true)
        true).swaps = 2 * exConfig.passes ∧
      (updateOptimizedBlurBuffer exFb 0 exConfig none 5 (fun _ => true)
        true).fb.current_buffer = exFb.current_buffer :=
  claim_C1_full_refresh_pass_structure exFb 0 exConfig none 5 (fun _ => true)
    true (by decide) (by decide) (by decide) (fun _ => rfl)

open EffectsFramebuffers in
/-- **C2.** A non-skipped call to `update_optimized_blur_buffer` that
completes the full refresh cycle (all `2·passes` pass calls and the final
blit succeed) returns `Ok` and advances `optimized_blur_generation` by
exactly one (`wrapping_add(1)` on the `u64`, hence modulo `2^64`; exactly
`+1` whenever no wraparound occurs, which holds in every reachable state).
If any blur pass or the blit fails, the call returns an error, the
optimized texture is left exactly as it was, and the generation counter is
unchanged. -/
theorem claim_C2_generation_and_error_handling (fb0 : EffectsFramebuffers)
    (now : ℚ) (config : BlurConfig) (rerenderFps : Option ℚ) (scene : ℕ)
    (passOk : ℕ → Bool) (blitOk : Bool)
    (hskip : throttleSkips fb0.optimized_blur_rerender_at now
      (filterFps rerenderFps) = false) :
    ((∀ i, i < 2 * config.passes → passOk i = true) → blitOk = true →
      (updateOptimizedBlurBuffer fb0 now config rerenderFps scene passOk
          blitOk).result = .ok () ∧
        (updateOptimizedBlurBuffer fb0 now config rerenderFps scene passOk
          blitOk).fb.optimized_blur_generation =
          (fb0.optimized_blur_generation + 1) % 2 ^ 64 ∧
        (fb0.optimized_blur_generation + 1 < 2 ^ 64 →
          (updateOptimizedBlurBuffer fb0 now config rerenderFps scene passOk
            blitOk).fb.optimized_blur_generation =
            fb0.optimized_blur_generation + 1)) ∧
      (((∃ i, i < 2 * config.passes ∧ passOk i = false) ∨ blitOk = false) →
        (∃ e, (updateOptimizedBlurBuffer fb0 now config rerenderFps scene
          passOk blitOk).result = .error e) ∧
          (updateOptimizedBlurBuffer fb0 now config rerenderFps scene passOk
            blitOk).fb.optimized_blur = fb0.optimized_blur ∧
          (updateOptimizedBlurBuffer fb0 now config rerenderFps scene passOk
            blitOk).fb.optimized_blur_generation =
            fb0.optimized_blur_generation) := by
  rw [updateOptimizedBlurBuffer_not_skipped fb0 now config rerenderFps scene
    passOk blitOk hskip]
  set fb1 : EffectsFramebuffers :=
    { fb0 with
      optimized_blur_rerender_at := getRerenderAt (filterFps rerenderFps) now,
      effects := { fb0.effects with contents := .scene scene },
      current_buffer := CurrentBuffer.normal } with hfb1
  obtain ⟨hdopt, hdgen, -⟩ :=
    runBlurPasses_preserved .down passOk config.passes 0 fb1
  obtain ⟨huopt, hugen, -⟩ :=
    runBlurPasses_preserved .up passOk config.passes config.passes
      (runBlurPasses .down passOk 0 config.passes fb1).fb
  constructor
  · intro hp hb
    have hderr : (runBlurPasses .down passOk 0 config.passes fb1).err = none :=
      (runBlurPasses_err_none_iff .down passOk config.passes 0 fb1).mpr
        (fun i _ h2 => hp i (by omega))
    have huerr : (runBlurPasses .up passOk config.passes config.passes
        (runBlurPasses .down passOk 0 config.passes fb1).fb).err = none :=
      (runBlurPasses_err_none_iff .up passOk config.passes config.passes
        _).mpr (fun i h1 h2 => hp i (by omega))
    simp only [runRefreshCycle, hderr, huerr, hb, if_true]
    refine ⟨trivial, ?_, ?_⟩
    · rw [hugen, hdgen]
    · intro hlt
      rw [hugen, hdgen]
      exact Nat.mod_eq_of_lt hlt
  · intro hfail
    cases hderr : (runBlurPasses .down passOk 0 config.passes fb1).err with
    | some e =>
      simp only [runRefreshCycle, hderr]
      exact ⟨⟨e, rfl⟩, by rw [hdopt], by rw [hdgen]⟩
    | none =>
      cases huerr : (runBlurPasses .up passOk config.passes config.passes
          (runBlurPasses .down passOk 0 config.passes fb1).fb).err with
      | some e =>
        simp only [runRefreshCycle, hderr, huerr]
        exact ⟨⟨e, rfl⟩, by rw [huopt, hdopt], by rw [hugen, hdgen]⟩
      | none =>
        have hallok : ∀ i, i < 2 * config.passes → passOk i = true := by
          intro i hi
          by_cases hip : i < config.passes
          · exact (runBlurPasses_err_none_iff .down passOk config.passes 0
              fb1).mp hderr i (by omega) (by omega)
          · exact (runBlurPasses_err_none_iff .up passOk config.passes
              config.passes _).mp huerr i (by omega) (by omega)
        have hbf : blitOk = false := by
          rcases hfail with ⟨i, hi, hno⟩ | hbf
          · rw [hallok i hi] at hno
            exact absurd hno (by simp)
          · exact hbf
        simp only [runRefreshCycle, hderr, huerr, hbf, Bool.false_eq_true,
          if_false]
        exact ⟨⟨.blitFailed, rfl⟩, by rw [huopt, hdopt], by rw [hugen, hdgen]⟩

open EffectsFramebuffers in
/-- Witness for C2: on `exFb` (generation 0) a fully successful refresh
returns `Ok` with generation 1; with every pass failing, the call errors
and the optimized texture and generation are untouched. -/
theorem claim_C2_generation_and_error_handling_witness :
    (updateOptimizedBlurBuffer exFb 0 exConfig none 5 (fun _ => true)
        true).result = .ok () ∧
      (updateOptimizedBlurBuffer exFb 0 exConfig none 5 (fun _ => true)
        true).fb.optimized_blur_generation = 1 ∧
      (∃ e, (updateOptimizedBlurBuffer exFb 0 exConfig none 5
        (fun _ => false) true).result = .error e) ∧
      (updateOptimizedBlurBuffer exFb 0 exConfig none 5 (fun _ => false)
        true).fb.optimized_blur = exFb.optimized_blur := by
  have hs := (claim_C2_generation_and_error_handling exFb 0 exConfig none 5
    (fun _ => true) true (by decide)).1 (fun i _ => rfl) rfl
  have hf := (claim_C2_generation_and_error_handling exFb 0 exConfig none 5
    (fun _ => false) true (by decide)).2
    (Or.inl ⟨0, by decide, rfl⟩)
  exact ⟨hs.1, hs.2.2 (by decide), hf.1, hf.2.1⟩

open EffectsFramebuffers in
/-- **C4.** With a target refresh rate `F > 0`: after a call performs GPU
work at time `t`, a second call at time `t' ≥ t` with `t' - t < 1/F`
performs no GPU work and returns success, while a second call with
`t' - t > 1/F` performs GPU work again. -/
theorem claim_C4_refresh_rate_throttling (fb0 : EffectsFramebuffers)
    (F t t' : ℚ) (config : BlurConfig) (scene1 scene2 : ℕ)
    (passOk1 passOk2 : ℕ → Bool) (blitOk1 blitOk2 : Bool)
    (hF : 0 < F) (hle : t ≤ t')
    (hwork : (updateOptimizedBlurBuffer fb0 t config (some F) scene1 passOk1
      blitOk1).didGpuWork = true) :
    (t' - t < 1 / F →
      (updateOptimizedBlurBuffer
          (updateOptimizedBlurBuffer fb0 t config (some F) scene1 passOk1
            blitOk1).fb t' config (some F) scene2 passOk2
          blitOk2).didGpuWork = false ∧
        (updateOptimizedBlurBuffer
          (updateOptimizedBlurBuffer fb0 t config (some F) scene1 passOk1
            blitOk1).fb t' config (some F) scene2 passOk2
          blitOk2).result = .ok ()) ∧
      (1 / F < t' - t →
        (updateOptimizedBlurBuffer
          (updateOptimizedBlurBuffer fb0 t config (some F) scene1 passOk1
            blitOk1).fb t' config (some F) scene2 passOk2
          blitOk2).didGpuWork = true) := by
  have hfps : filterFps (some F) = some F := by
    simp [filterFps, hF]
  have hskip1 : throttleSkips fb0.optimized_blur_rerender_at t
      (filterFps (some F)) = false := by
    by_contra h
    rw [Bool.not_eq_false] at h
    rw [updateOptimizedBlurBuffer_skipped fb0 t config (some F) scene1
      passOk1 blitOk1 h] at hwork
    exact absurd hwork (by simp)
  have hra : (updateOptimizedBlurBuffer fb0 t config (some F) scene1 passOk1
      blitOk1).fb.optimized_blur_rerender_at = some (t + 1 / F) := by
    rw [updateOptimizedBlurBuffer_not_skipped fb0 t config (some F) scene1
      passOk1 blitOk1 hskip1, runRefreshCycle_rerender_at]
    show getRerenderAt (filterFps (some F)) t = some (t + 1 / F)
    rw [hfps]
    simp [getRerenderAt, hF]
  constructor
  · intro hlt
    have h1 : ¬(t + 1 / F > t' + 1 / F) := by linarith
    have h2 : t + 1 / F > t' := by linarith
    have hskip2 : throttleSkips
        (updateOptimizedBlurBuffer fb0 t config (some F) scene1 passOk1
          blitOk1).fb.optimized_blur_rerender_at t'
        (filterFps (some F)) = true := by
      rw [hra, hfps]
      simp only [throttleSkips, if_neg h1, if_pos h2]
    rw [updateOptimizedBlurBuffer_skipped _ t' config (some F) scene2
      passOk2 blitOk2 hskip2]
    exact ⟨rfl, rfl⟩
  · intro hgt
    have h1 : ¬(t + 1 / F > t' + 1 / F) := by linarith
    have h2 : ¬(t + 1 / F > t') := by linarith
    have hskip2 : throttleSkips
        (updateOptimizedBlurBuffer fb0 t config (some F) scene1 passOk1
          blitOk1).fb.optimized_blur_rerender_at t'
        (filterFps (some F)) = false := by
      rw [hra, hfps]
      simp only [throttleSkips, if_neg h1, if_neg h2]
    rw [updateOptimizedBlurBuffer_not_skipped _ t' config (some F) scene2
      passOk2 blitOk2 hskip2]
    exact runRefreshCycle_didGpuWork _ _ _ _

open EffectsFramebuffers in
/-- Witness for C4 at `F = 10`, `t = 0`: a second call at `t' = 1/20`
(inside the `1/F = 1/10` window) does no GPU work; at `t' = 1/5` (outside
the window) it does. -/
theorem claim_C4_refresh_rate_throttling_witness :
    (updateOptimizedBlurBuffer
        (updateOptimizedBlurBuffer exFb 0 exConfig (some 10) 5 (fun _ => true)
          true).fb (1/20) exConfig (some 10) 6 (fun _ => true)
        true).didGpuWork = false ∧
      (updateOptimizedBlurBuffer
        (updateOptimizedBlurBuffer exFb 0 exConfig (some 10) 5 (fun _ => true)
          true).fb (1/5) exConfig (some 10) 6 (fun _ => true)
        true).didGpuWork = true := by
  have ha := (claim_C4_refresh_rate_throttling exFb 10 0 (1/20) exConfig 5 6
    (fun _ => true) (fun _ => true) true true (by norm_num) (by norm_num)
    (by decide)).1 (by norm_num)
  have hb := (claim_C4_refresh_rate_throttling exFb 10 0 (1/5) exConfig 5 6
    (fun _ => true) (fun _ => true) true true (by norm_num) (by norm_num)
    (by decide)).2 (by norm_num)
  exact ⟨ha.1, hb⟩

open EffectsFramebuffers in
/-- **C8, counterexample.** `set_dirty` on a state with no pending deadline
does set a deadline (`now + 150 ms`), but a refresh invoked right
afterwards (here with no target fps) performs **no** GPU work, contradicting
"sets a deadline that is immediately eligible". -/
theorem claim_C8_counterexample :
    (EffectsFramebuffers.setDirty exFb 0).optimized_blur_rerender_at =
        some (3/20) ∧
      (updateOptimizedBlurBuffer (EffectsFramebuffers.setDirty exFb 0) 0
        exConfig none 5 (fun _ => true) true).didGpuWork = false ∧
      (updateOptimizedBlurBuffer (EffectsFramebuffers.setDirty exFb 0) 0
        exConfig none 5 (fun _ => true) true).result = .ok () := by
  have hra : (EffectsFramebuffers.setDirty exFb 0).optimized_blur_rerender_at
      = some (3/20) := by
    simp [EffectsFramebuffers.setDirty, exFb, getRerenderAt,
      defaultBlurRerenderInterval]
  have hskip : throttleSkips
      (EffectsFramebuffers.setDirty exFb 0).optimized_blur_rerender_at 0
      (filterFps none) = true := by
    rw [hra]
    simp only [filterFps, throttleSkips]
    rw [decide_eq_true_eq]
    norm_num
  rw [updateOptimizedBlurBuffer_skipped (EffectsFramebuffers.setDirty exFb 0)
    0 exConfig none 5 (fun _ => true) true hskip]
  exact ⟨hra, rfl, rfl⟩

open EffectsFramebuffers in
/-- **C8, amended.** `set_dirty` called with no pending deadline sets the
deadline to `now + 150 ms` (the default interval) — *not* an immediately
eligible one: a refresh invoked right afterwards with no target fps performs
no GPU work; only a refresh whose target interval `1/F` is shorter than
150 ms performs GPU work immediately (through the deadline-clamping branch
of the throttle).  Called with a deadline already pending, `set_dirty`
leaves the state entirely unchanged (in particular it never replaces the
existing deadline with a later one). -/
theorem claim_C8_set_dirty_behavior (fb : EffectsFramebuffers) (now : ℚ) :
    (fb.optimized_blur_rerender_at = none →
      (fb.setDirty now).optimized_blur_rerender_at =
          some (now + defaultBlurRerenderInterval) ∧
        (∀ (config : BlurConfig) (scene : ℕ) (passOk : ℕ → Bool)
          (blitOk : Bool),
          (updateOptimizedBlurBuffer (fb.setDirty now) now config none scene
            passOk blitOk).didGpuWork = false) ∧
        (∀ F : ℚ, 0 < F → 1 / F < defaultBlurRerenderInterval →
          ∀ (config : BlurConfig) (scene : ℕ) (passOk : ℕ → Bool)
            (blitOk : Bool),
            (updateOptimizedBlurBuffer (fb.setDirty now) now config (some F)
              scene passOk blitOk).didGpuWork = true)) ∧
      (fb.optimized_blur_rerender_at ≠ none → fb.setDirty now = fb) := by
  constructor
  · intro hnone
    refine ⟨?_, ?_, ?_⟩
    · simp [EffectsFramebuffers.setDirty, hnone, getRerenderAt]
    · intro config scene passOk blitOk
      have hgt : now + defaultBlurRerenderInterval > now := by
        have h0 : (0:ℚ) < defaultBlurRerenderInterval := by
          norm_num [defaultBlurRerenderInterval]
        linarith
      have hskip : throttleSkips
          (fb.setDirty now).optimized_blur_rerender_at now
          (filterFps none) = true := by
        simp [EffectsFramebuffers.setDirty, hnone, getRerenderAt, filterFps,
          throttleSkips, hgt]
      rw [updateOptimizedBlurBuffer_skipped _ now config none scene passOk
        blitOk hskip]
    · intro F hF hlt config scene passOk blitOk
      have h1 : now + defaultBlurRerenderInterval > now + 1 / F := by
        linarith
      have hval : (fb.setDirty now).optimized_blur_rerender_at =
          some (now + defaultBlurRerenderInterval) := by
        simp [EffectsFramebuffers.setDirty, hnone, getRerenderAt]
      have hfps2 : filterFps (some F) = some F := by
        simp [filterFps, hF]
      have hskip : throttleSkips
          (fb.setDirty now).optimized_blur_rerender_at now
          (filterFps (some F)) = false := by
        rw [hval, hfps2]
        simp only [throttleSkips, if_pos h1]
      rw [updateOptimizedBlurBuffer_not_skipped _ now config (some F) scene
        passOk blitOk hskip]
      exact runRefreshCycle_didGpuWork _ _ _ _
  · intro hsome
    simp [EffectsFramebuffers.setDirty, hsome]

open EffectsFramebuffers in
/-- Witness for the amended C8 on `exFb` at `now = 0`, with `F = 10` for
the short-interval refresh and a state with a pending deadline for the
unchanged case. -/
theorem claim_C8_set_dirty_behavior_witness :
    (EffectsFramebuffers.setDirty exFb 0).optimized_blur_rerender_at =
        some (0 + defaultBlurRerenderInterval) ∧
      (updateOptimizedBlurBuffer (EffectsFramebuffers.setDirty exFb 0) 0
        exConfig none 5 (fun _ => true) true).didGpuWork = false ∧
      (updateOptimizedBlurBuffer (EffectsFramebuffers.setDirty exFb 0) 0
        exConfig (some 10) 5 (fun _ => true) true).didGpuWork = true ∧
      EffectsFramebuffers.setDirty
          { exFb with optimized_blur_rerender_at := some 1 } 0 =
        { exFb with optimized_blur_rerender_at := some 1 } := by
  obtain ⟨ha, hb, hc⟩ := (claim_C8_set_dirty_behavior exFb 0).1 rfl
  refine ⟨ha, hb exConfig 5 (fun _ => true) true,
    hc 10 (by norm_num) (by norm_num [defaultBlurRerenderInterval])
      exConfig 5 (fun _ => true) true,
    (claim_C8_set_dirty_behavior
      { exFb with optimized_blur_rerender_at := some 1 } 0).2 (by simp)⟩

/-- **C3, counterexample.** With `passes = 2`, `radius = 10` and a
100×100 base rectangle at the origin, the blurred region of
`get_main_buffer_blur` is `(-640, -640, 1380, 1380)` — an expansion of
`8·⌈2^(P+1)·R⌉ = 640` pixels per side — not the `(-80, -80, 260, 260)`
(80 = `2^(P+1)·R` per side) the claim asserts. -/
theorem claim_C3_counterexample :
    dstExpanded exConfig ⟨0, 0, 100, 100⟩ = ⟨-640, -640, 1380, 1380⟩ ∧
      dstExpanded exConfig ⟨0, 0, 100, 100⟩ ≠ ⟨-80, -80, 260, 260⟩ := by
  have hsz : (⌈(2 ^ (exConfig.passes + 1) : ℚ) * exConfig.radius⌉ : ℤ)
      = 80 := by
    norm_num [exConfig]
  constructor
  · simp only [dstExpanded, hsz]
    decide
  · simp only [dstExpanded, hsz]
    decide

/-- **C3, amended.** The rectangle a TrueBlur element actually blurs
(`dst_expanded` in `get_main_buffer_blur`) exceeds the requested `dst` by
exactly `8·⌈2^(P+1)·R⌉` device pixels on every side (the `size` value is
additionally upscaled by 8 for the location shift and 16 for the extent
growth), not by `2^(P+1)·R`.  The damage the element itself reports, its
`Element::geometry`, is the unexpanded base rectangle: `render_loc` and the
`sample_area` size scaled and rounded, with no radius- or pass-dependent
term. -/
theorem claim_C3_blur_region_expansion (config : BlurConfig) (dst : IRect)
    (e : BlurRenderElement) (scale : ℚ) :
    (dstExpanded config dst).x =
        dst.x - 8 * ⌈(2 ^ (config.passes + 1) : ℚ) * config.radius⌉ ∧
      (dstExpanded config dst).x + (dstExpanded config dst).w =
        dst.x + dst.w + 8 * ⌈(2 ^ (config.passes + 1) : ℚ) * config.radius⌉ ∧
      (dstExpanded config dst).y =
        dst.y - 8 * ⌈(2 ^ (config.passes + 1) : ℚ) * config.radius⌉ ∧
      (dstExpanded config dst).y + (dstExpanded config dst).h =
        dst.y + dst.h + 8 * ⌈(2 ^ (config.passes + 1) : ℚ) * config.radius⌉ ∧
      e.elementGeometry scale =
        ⟨rustRound (e.render_loc.1 * scale), rustRound (e.render_loc.2 * scale),
         rustRound ((e.sample_area.w : ℚ) * scale),
         rustRound ((e.sample_area.h : ℚ) * scale)⟩ := by
  refine ⟨?_, ?_, ?_, ?_, rfl⟩ <;> simp [dstExpanded] <;> ring

/-- Closed form of `opaque_regions` for an Optimized element with no
alpha-ignore texture (helper shared by the C9 theorems). -/
theorem opaqueRegions_optimized_no_alpha (e : BlurRenderElement) (scale : ℚ)
    (h1 : e.alpha_tex = none) (h2 : e.variant.isTrue = false) :
    e.opaqueRegions scale =
      [⟨⌈(e.corner_radius.scaledBy scale).top_left⌉,
        ⌈(e.corner_radius.scaledBy scale).top_left⌉,
        (e.elementGeometry scale).w - 2 *
          ⌈max (max (max (e.corner_radius.scaledBy scale).top_left
              (e.corner_radius.scaledBy scale).top_right)
            (e.corner_radius.scaledBy scale).bottom_right)
            (e.corner_radius.scaledBy scale).bottom_left⌉,
        (e.elementGeometry scale).h - 2 *
          ⌈max (max (max (e.corner_radius.scaledBy scale).top_left
              (e.corner_radius.scaledBy scale).top_right)
            (e.corner_radius.scaledBy scale).bottom_right)
            (e.corner_radius.scaledBy scale).bottom_left⌉⟩] := by
  simp [BlurRenderElement.opaqueRegions, h1, h2]

/-- **C9, counterexample.** An Optimized element with corner radii
`(top-left, top-right, bottom-right, bottom-left) = (0, 10, 10, 10)`,
scale 1 and a 100×100 geometry reports the opaque rectangle
`(0, 0, 80, 80)`: its offset uses the *top-left* radius (0), so the left
and top insets are 0 and the right and bottom insets are 20 — not the
`(10, 10, 80, 80)` rectangle inset by the largest radius (10) on every
side that the claim asserts. -/
theorem claim_C9_counterexample :
    BlurRenderElement.opaqueRegions exElemCorners 1 = [⟨0, 0, 80, 80⟩] ∧
      BlurRenderElement.opaqueRegions exElemCorners 1 ≠
        [⟨10, 10, 80, 80⟩] := by
  have h := opaqueRegions_optimized_no_alpha exElemCorners 1 rfl rfl
  rw [h]
  constructor <;>
    norm_num [exElemCorners, CornerRadius.scaledBy,
      BlurRenderElement.elementGeometry, rustRound]

/-- **C9, amended.** `opaque_regions`: a TrueBlur element reports no opaque
regions, and so does *any* element carrying an alpha-ignore texture.  An
Optimized element without an alpha-ignore texture reports exactly one
rectangle, located at `(⌈top_left⌉, ⌈top_left⌉)` (the scaled top-left
radius on both axes, not the largest radius), with the element geometry
size shrunk by twice the ceiling of the largest scaled corner radius on
each axis — so the left/top insets equal `⌈top_left⌉` and the right/bottom
insets equal `2·⌈largest⌉ − ⌈top_left⌉`. -/
theorem claim_C9_opaque_regions (e : BlurRenderElement) (scale : ℚ) :
    (e.variant.isTrue = true → e.opaqueRegions scale = []) ∧
      (e.alpha_tex.isSome = true → e.opaqueRegions scale = []) ∧
      (e.alpha_tex = none → e.variant.isTrue = false →
        e.opaqueRegions scale =
          [⟨⌈(e.corner_radius.scaledBy scale).top_left⌉,
            ⌈(e.corner_radius.scaledBy scale).top_left⌉,
            (e.elementGeometry scale).w - 2 *
              ⌈max (max (max (e.corner_radius.scaledBy scale).top_left
                  (e.corner_radius.scaledBy scale).top_right)
                (e.corner_radius.scaledBy scale).bottom_right)
                (e.corner_radius.scaledBy scale).bottom_left⌉,
            (e.elementGeometry scale).h - 2 *
              ⌈max (max (max (e.corner_radius.scaledBy scale).top_left
                  (e.corner_radius.scaledBy scale).top_right)
                (e.corner_radius.scaledBy scale).bottom_right)
                (e.corner_radius.scaledBy scale).bottom_left⌉⟩]) := by
  refine ⟨?_, ?_, ?_⟩
  · intro h
    simp [BlurRenderElement.opaqueRegions, h]
  · intro h
    simp [BlurRenderElement.opaqueRegions, h]
  · intro h1 h2
    exact opaqueRegions_optimized_no_alpha e scale h1 h2

/-- Witness for C9: `exElemTrue` (True variant) reports nothing;
`exElemCorners` (Optimized, no alpha texture) reports the rectangle of the
closed form. -/
theorem claim_C9_opaque_regions_witness :
    BlurRenderElement.opaqueRegions exElemTrue 1 = [] ∧
      BlurRenderElement.opaqueRegions exElemCorners 1 =
        [⟨⌈(exElemCorners.corner_radius.scaledBy 1).top_left⌉,
          ⌈(exElemCorners.corner_radius.scaledBy 1).top_left⌉,
          (exElemCorners.elementGeometry 1).w - 2 *
            ⌈max (max (max (exElemCorners.corner_radius.scaledBy 1).top_left
                (exElemCorners.corner_radius.scaledBy 1).top_right)
              (exElemCorners.corner_radius.scaledBy 1).bottom_right)
              (exElemCorners.corner_radius.scaledBy 1).bottom_left⌉,
          (exElemCorners.elementGeometry 1).h - 2 *
            ⌈max (max (max (exElemCorners.corner_radius.scaledBy 1).top_left
                (exElemCorners.corner_radius.scaledBy 1).top_right)
              (exElemCorners.corner_radius.scaledBy 1).bottom_right)
              (exElemCorners.corner_radius.scaledBy 1).bottom_left⌉⟩] :=
  ⟨(claim_C9_opaque_regions exElemTrue 1).1 rfl,
    (claim_C9_opaque_regions exElemCorners 1).2.2 rfl rfl⟩

/-- **C10.** In `update_uniforms`, when the element's alpha-ignore texture
is absent the uniform set always carries `ignore_alpha = 0` and
`alpha_tex = 0` — regardless of the configured `ignore_alpha` amount — and
every uniform named `ignore_alpha`/`alpha_tex` in the set has that zero
value; the configured amount (and texture-unit flag 1) is emitted only when
an alpha texture is actually present. -/
theorem claim_C10_ignore_alpha_uniforms (sample_area : IRect) (scale : ℚ)
    (geometry : QRect) (corner_radius : CornerRadius) (config : BlurConfig)
    (outputSize : ℤ × ℤ) (alphaTex : Option GlesTexture) :
    (alphaTex = none →
      Uniform.mk "ignore_alpha" (.float 0) ∈
          computeUniforms sample_area scale geometry corner_radius config
            alphaTex.isSome outputSize ∧
        Uniform.mk "alpha_tex" (.int 0) ∈
          computeUniforms sample_area scale geometry corner_radius config
            alphaTex.isSome outputSize ∧
        (∀ u ∈ computeUniforms sample_area scale geometry corner_radius
            config alphaTex.isSome outputSize,
          (u.name = "ignore_alpha" → u.value = .float 0) ∧
            (u.name = "alpha_tex" → u.value = .int 0))) ∧
      (alphaTex.isSome = true →
        Uniform.mk "ignore_alpha" (.float config.ignore_alpha) ∈
            computeUniforms sample_area scale geometry corner_radius config
              alphaTex.isSome outputSize ∧
          Uniform.mk "alpha_tex" (.int 1) ∈
            computeUniforms sample_area scale geometry corner_radius config
              alphaTex.isSome outputSize) := by
  constructor
  · intro h
    subst h
    refine ⟨?_, ?_, ?_⟩
    · simp [computeUniforms]
    · simp [computeUniforms]
    · intro u hu
      simp only [computeUniforms, Option.isSome_none, Bool.false_eq_true,
        if_false, List.mem_cons, List.mem_singleton] at hu
      rcases hu with rfl | rfl | rfl | rfl | rfl | rfl | rfl | h
      all_goals first
        | exact ⟨fun _ => rfl, by intro hc; simp at hc⟩
        | exact ⟨by intro hc; simp at hc, fun _ => rfl⟩
        | exact ⟨by intro hc; simp at hc, by intro hc; simp at hc⟩
        | cases h
  · intro h
    rw [h]
    constructor
    · simp [computeUniforms]
    · simp [computeUniforms]

/-- Witness for C10 at a concrete geometry: no alpha texture gives the zero
uniforms; an alpha texture gives the configured amount (1/5) and unit 1. -/
theorem claim_C10_ignore_alpha_uniforms_witness :
    Uniform.mk "ignore_alpha" (.float 0) ∈
        computeUniforms ⟨0, 0, 200, 100⟩ 2 ⟨0, 0, 200, 100⟩ ⟨4, 4, 4, 4⟩
          exConfig false (1920, 1080) ∧
      Uniform.mk "alpha_tex" (.int 0) ∈
        computeUniforms ⟨0, 0, 200, 100⟩ 2 ⟨0, 0, 200, 100⟩ ⟨4, 4, 4, 4⟩
          exConfig false (1920, 1080) ∧
      Uniform.mk "ignore_alpha" (.float exConfig.ignore_alpha) ∈
        computeUniforms ⟨0, 0, 200, 100⟩ 2 ⟨0, 0, 200, 100⟩ ⟨4, 4, 4, 4⟩
          exConfig true (1920, 1080) ∧
      Uniform.mk "alpha_tex" (.int 1) ∈
        computeUniforms ⟨0, 0, 200, 100⟩ 2 ⟨0, 0, 200, 100⟩ ⟨4, 4, 4, 4⟩
          exConfig true (1920, 1080) := by
  have h0 := (claim_C10_ignore_alpha_uniforms ⟨0, 0, 200, 100⟩ 2
    ⟨0, 0, 200, 100⟩ ⟨4, 4, 4, 4⟩ exConfig (1920, 1080) none).1 rfl
  have h1 := (claim_C10_ignore_alpha_uniforms ⟨0, 0, 200, 100⟩ 2
    ⟨0, 0, 200, 100⟩ ⟨4, 4, 4, 4⟩ exConfig (1920, 1080)
    (some ⟨20, 200, 100, .blank 9⟩)).2 rfl
  exact ⟨h0.1, h0.2.1, h1.1, h1.2⟩

namespace BlurState

/-- A variant produced by `mkVariant` has kind `tb` (helper). -/
theorem mkVariant_isTrue (b : BlurState) (fx : EffectsFramebuffers)
    (tb allocOk : Bool) (freshTexId : ℕ) :
    ∀ v, mkVariant b fx tb allocOk freshTexId = some v →
      v.isTrue = tb := by
  intro v hv
  cases tb with
  | false =>
    simp only [mkVariant, Bool.false_eq_true, if_false] at hv
    obtain rfl := (Option.some_inj.mp hv).symm
    rfl
  | true =>
    cases allocOk with
    | false => simp [mkVariant, texBuffer] at hv
    | true =>
      simp only [mkVariant, texBuffer, if_true, Option.map_some] at hv
      obtain rfl := (Option.some_inj.mp hv).symm
      rfl

/-- The comparison tail never changes the variant kind (helper). -/
theorem renderCompare_variant_isTrue (b : BlurState)
    (fx : EffectsFramebuffers) (now : ℚ) (sample_area : IRect)
    (corner_radius : CornerRadius) (scale : ℚ) (geometry : QRect)
    (render_loc : ℚ × ℚ) (inner1 : BlurRenderElement) :
    ∀ r, (renderCompare b fx now sample_area corner_radius scale geometry
        render_loc inner1).1 = some r →
      r.variant.isTrue = inner1.variant.isTrue := by
  intro r hr
  rw [renderCompare] at hr
  split at hr
  · split at hr
    · obtain rfl := (Option.some_inj.mp hr).symm
      rfl
    · obtain rfl := (Option.some_inj.mp hr).symm
      rfl
  · cases hvar : inner1.variant with
    | optimized t =>
      rw [hvar] at hr
      simp only [] at hr
      obtain rfl := (Option.some_inj.mp hr).symm
      simp [BlurVariant.isTrue, hvar]
    | trueBlur t c ra =>
      rw [hvar] at hr
      simp only [] at hr
      obtain rfl := (Option.some_inj.mp hr).symm
      simp [BlurVariant.isTrue, hvar]

/-- Any element returned by `Blur::render` has the variant kind of the
effective (post-downgrade) request (helper for C7). -/
theorem render_variant_isTrue (b : BlurState) (fx : EffectsFramebuffers)
    (now : ℚ) (sample_area : IRect) (corner_radius : CornerRadius)
    (scale : ℚ) (geometry : QRect) (true_blur : Bool)
    (render_loc : ℚ × ℚ) (allocOk : Bool) (freshId freshTexId : ℕ) :
    ∀ r, (b.render fx now sample_area corner_radius scale geometry true_blur
        render_loc allocOk freshId freshTexId).1 = some r →
      r.variant.isTrue = effectiveTrueBlur fx true_blur := by
  intro r hr
  rw [render] at hr
  split at hr
  · exact absurd hr (by simp)
  · cases hinner : b.inner with
    | none =>
      simp only [hinner] at hr
      cases hmk : mkVariant b fx (effectiveTrueBlur fx true_blur) allocOk
          freshTexId with
      | none =>
        simp only [hmk] at hr
        exact absurd hr (by simp)
      | some v =>
        simp only [hmk] at hr
        obtain rfl := (Option.some_inj.mp hr).symm
        exact mkVariant_isTrue b fx _ allocOk freshTexId v hmk
    | some inner0 =>
      simp only [hinner] at hr
      by_cases hkind :
          effectiveTrueBlur fx true_blur ≠ inner0.variant.isTrue
      · rw [if_pos hkind] at hr
        cases hmk : mkVariant b fx (effectiveTrueBlur fx true_blur) allocOk
            freshTexId with
        | none =>
          simp only [hmk] at hr
          exact absurd hr (by simp)
        | some v =>
          simp only [hmk, Option.map_some] at hr
          have h2 := renderCompare_variant_isTrue b fx now sample_area
            corner_radius scale geometry render_loc
            { inner0 with variant := v, commit := inner0.commit + 1 } r hr
          rw [h2]
          exact mkVariant_isTrue b fx _ allocOk freshTexId v hmk
      · rw [if_neg hkind] at hr
        have h2 := renderCompare_variant_isTrue b fx now sample_area
          corner_radius scale geometry render_loc inner0 r hr
        rw [h2, not_ne_iff.mp hkind]

/-- The comparison tail always returns an element, never decreasing the
commit counter (helper). -/
theorem renderCompare_some_le (b : BlurState) (fx : EffectsFramebuffers)
    (now : ℚ) (sample_area : IRect) (corner_radius : CornerRadius)
    (scale : ℚ) (geometry : QRect) (render_loc : ℚ × ℚ)
    (inner1 : BlurRenderElement) :
    ∃ r, (renderCompare b fx now sample_area corner_radius scale geometry
        render_loc inner1).1 = some r ∧ inner1.commit ≤ r.commit := by
  rw [renderCompare]
  split
  · split
    · exact ⟨_, rfl, Nat.le_succ _⟩
    · exact ⟨_, rfl, le_rfl⟩
  · refine ⟨_, rfl, ?_⟩
    cases hvar : inner1.variant <;> simp [hvar]

/-- When anything about the cached geometry differs (or the variant needs
reconfiguring), the comparison tail takes the update path and increments
the commit counter by one (helper). -/
theorem renderCompare_changed (b : BlurState) (fx : EffectsFramebuffers)
    (now : ℚ) (sample_area : IRect) (corner_radius : CornerRadius)
    (scale : ℚ) (geometry : QRect) (render_loc : ℚ × ℚ)
    (inner1 : BlurRenderElement)
    (hne : ¬(inner1.sample_area = sample_area ∧ inner1.geometry = geometry ∧
      inner1.scale = scale ∧ inner1.corner_radius = corner_radius ∧
      inner1.render_loc = render_loc ∧
      variantNeedsReconfigure inner1.variant fx = false)) :
    ∃ r, (renderCompare b fx now sample_area corner_radius scale geometry
        render_loc inner1).1 = some r ∧ r.commit = inner1.commit + 1 := by
  have hcond : (inner1.sample_area = sample_area
      && inner1.geometry = geometry && inner1.scale = scale
      && inner1.corner_radius = corner_radius
      && inner1.render_loc = render_loc
      && !variantNeedsReconfigure inner1.variant fx) = false := by
    by_contra hc
    rw [Bool.not_eq_false] at hc
    simp only [Bool.and_eq_true, decide_eq_true_eq, Bool.not_eq_eq_eq_not,
      Bool.not_true] at hc
    exact hne ⟨hc.1.1.1.1.1, hc.1.1.1.1.2, hc.1.1.1.2, hc.1.1.2, hc.1.2,
      hc.2⟩
  simp only [renderCompare, hcond, Bool.false_eq_true, if_false]
  refine ⟨_, rfl, ?_⟩
  cases hvar : inner1.variant <;> simp [hvar]

/-- Reduction of `Blur::render` to the comparison tail when the cache is
populated and the effective request matches the cached variant kind
(helper). -/
theorem render_cached_same_kind (b : BlurState) (fx : EffectsFramebuffers)
    (now : ℚ) (sample_area : IRect) (corner_radius : CornerRadius)
    (scale : ℚ) (geometry : QRect) (true_blur : Bool)
    (render_loc : ℚ × ℚ) (allocOk : Bool) (freshId freshTexId : ℕ)
    (inner0 : BlurRenderElement) (hinner : b.inner = some inner0)
    (hon : b.config.enabled = true) (hp : b.config.passes ≠ 0)
    (hrad : b.config.radius ≠ 0)
    (hk : effectiveTrueBlur fx true_blur = inner0.variant.isTrue) :
    b.render fx now sample_area corner_radius scale geometry true_blur
        render_loc allocOk freshId freshTexId =
      renderCompare b fx now sample_area corner_radius scale geometry
        render_loc inner0 := by
  rw [render, if_neg (by simp [hon, hp, hrad])]
  simp only [hinner]
  rw [if_neg (not_ne_iff.mpr hk)]

/-- Reduction of `Blur::render` to the comparison tail on a variant-kind
switch (helper): the cached element first gets the new variant and one
commit increment. -/
theorem render_cached_switch_kind (b : BlurState) (fx : EffectsFramebuffers)
    (now : ℚ) (sample_area : IRect) (corner_radius : CornerRadius)
    (scale : ℚ) (geometry : QRect) (true_blur : Bool)
    (render_loc : ℚ × ℚ) (allocOk : Bool) (freshId freshTexId : ℕ)
    (inner0 : BlurRenderElement) (v : BlurVariant)
    (hinner : b.inner = some inner0)
    (hon : b.config.enabled = true) (hp : b.config.passes ≠ 0)
    (hrad : b.config.radius ≠ 0)
    (hk : effectiveTrueBlur fx true_blur ≠ inner0.variant.isTrue)
    (hmk : mkVariant b fx (effectiveTrueBlur fx true_blur) allocOk
      freshTexId = some v) :
    b.render fx now sample_area corner_radius scale geometry true_blur
        render_loc allocOk freshId freshTexId =
      renderCompare b fx now sample_area corner_radius scale geometry
        render_loc { inner0 with variant := v, commit := inner0.commit + 1 }
      := by
  rw [render, if_neg (by simp [hon, hp, hrad])]
  simp only [hinner]
  rw [if_pos hk]
  simp only [hmk]
  rfl

end BlurState

open BlurState in
/-- **C7.** Whenever `Blur::render` is asked for TrueBlur while the
output transform is a 90° or 270° rotation, the request is downgraded:
any element it returns is the Optimized variant, never TrueBlur. -/
theorem claim_C7_true_blur_downgrade_on_rotation (b : BlurState)
    (fx : EffectsFramebuffers) (now : ℚ) (sample_area : IRect)
    (corner_radius : CornerRadius) (scale : ℚ) (geometry : QRect)
    (true_blur : Bool) (render_loc : ℚ × ℚ) (allocOk : Bool)
    (freshId freshTexId : ℕ)
    (htr : fx.transform = Transform.rot90 ∨
      fx.transform = Transform.rot270) :
    ∀ r, (b.render fx now sample_area corner_radius scale geometry true_blur
        render_loc allocOk freshId freshTexId).1 = some r →
      r.variant.isTrue = false := by
  intro r hr
  have h := render_variant_isTrue b fx now sample_area corner_radius scale
    geometry true_blur render_loc allocOk freshId freshTexId r hr
  rw [h]
  rcases htr with h90 | h270
  · simp [effectiveTrueBlur, h90]
  · simp [effectiveTrueBlur, h270]

open BlurState in
/-- Witness for C7: on the 90°-rotated `exFbRot90`, requesting TrueBlur
with an empty cache yields the Optimized-variant element. -/
theorem claim_C7_true_blur_downgrade_on_rotation_witness :
    ((⟨exConfig, none, none⟩ : BlurState).render exFbRot90 0
        ⟨0, 0, 200, 100⟩ ⟨4, 4, 4, 4⟩ 2 ⟨0, 0, 200, 100⟩ true (0, 0) true 7
        13).1 =
        some (BlurRenderElement.new exFbRot90.output_size ⟨0, 0, 200, 100⟩
          ⟨4, 4, 4, 4⟩ 2 exConfig ⟨0, 0, 200, 100⟩ none
          (.optimized exFbRot90.optimized_blur) (0, 0) 7) ∧
      (BlurRenderElement.new exFbRot90.output_size ⟨0, 0, 200, 100⟩
        ⟨4, 4, 4, 4⟩ 2 exConfig ⟨0, 0, 200, 100⟩ none
        (.optimized exFbRot90.optimized_blur) (0, 0) 7).variant.isTrue =
        false := by
  have ha : ((⟨exConfig, none, none⟩ : BlurState).render exFbRot90 0
      ⟨0, 0, 200, 100⟩ ⟨4, 4, 4, 4⟩ 2 ⟨0, 0, 200, 100⟩ true (0, 0) true 7
      13).1 =
      some (BlurRenderElement.new exFbRot90.output_size ⟨0, 0, 200, 100⟩
        ⟨4, 4, 4, 4⟩ 2 exConfig ⟨0, 0, 200, 100⟩ none
        (.optimized exFbRot90.optimized_blur) (0, 0) 7) := rfl
  exact ⟨ha, claim_C7_true_blur_downgrade_on_rotation ⟨exConfig, none, none⟩
    exFbRot90 0 ⟨0, 0, 200, 100⟩ ⟨4, 4, 4, 4⟩ 2 ⟨0, 0, 200, 100⟩ true (0, 0)
    true 7 13 (Or.inl rfl) _ ha⟩

open BlurState in
/-- **C5.** A second `Blur::render` call with a populated cache and
identical `sample_area`, `geometry`, `scale`, `corner_radius`,
`render_loc` and (effective) variant request, when the variant needs no
reconfiguration, returns the cached element and leaves the cache as it
was — with the commit counter unchanged — unless the variant's own
refresh deadline has elapsed (`variant_needs_rerender`: for TrueBlur the
`rerender_at` deadline unset or past, for Optimized a stale texture size),
in which case only the commit counter is incremented. -/
theorem claim_C5_cached_render_no_damage (b : BlurState)
    (fx : EffectsFramebuffers) (now : ℚ) (sample_area : IRect)
    (corner_radius : CornerRadius) (scale : ℚ) (geometry : QRect)
    (true_blur : Bool) (render_loc : ℚ × ℚ) (allocOk : Bool)
    (freshId freshTexId : ℕ) (inner0 : BlurRenderElement)
    (hinner : b.inner = some inner0)
    (hon : b.config.enabled = true) (hp : b.config.passes ≠ 0)
    (hrad : b.config.radius ≠ 0)
    (hkind : effectiveTrueBlur fx true_blur = inner0.variant.isTrue)
    (hsa : inner0.sample_area = sample_area)
    (hgeo : inner0.geometry = geometry)
    (hsc : inner0.scale = scale)
    (hcr : inner0.corner_radius = corner_radius)
    (hrl : inner0.render_loc = render_loc)
    (hrc : variantNeedsReconfigure inner0.variant fx = false) :
    (variantNeedsRerender inner0.variant fx now = false →
      b.render fx now sample_area corner_radius scale geometry true_blur
          render_loc allocOk freshId freshTexId = (some inner0, b)) ∧
      (variantNeedsRerender inner0.variant fx now = true →
        b.render fx now sample_area corner_radius scale geometry true_blur
            render_loc allocOk freshId freshTexId =
          (some ({ inner0 with commit := inner0.commit + 1 }),
            { b with
              inner := some ({ inner0 with commit := inner0.commit + 1 }) }))
      := by
  have heq := render_cached_same_kind b fx now sample_area corner_radius
    scale geometry true_blur render_loc allocOk freshId freshTexId inner0
    hinner hon hp hrad hkind
  rw [heq]
  have hcond : (inner0.sample_area = sample_area
      && inner0.geometry = geometry && inner0.scale = scale
      && inner0.corner_radius = corner_radius
      && inner0.render_loc = render_loc
      && !variantNeedsReconfigure inner0.variant fx) = true := by
    simp [hsa, hgeo, hsc, hcr, hrl, hrc]
  constructor
  · intro hnr
    simp only [renderCompare]
    rw [if_pos hcond, if_neg (by simp [hnr])]
    congr 1
    rw [← hinner]
  · intro hyr
    simp only [renderCompare]
    rw [if_pos hcond, if_pos hyr]

open BlurState in
/-- Witness for C5: `exBlur` holds the cached Optimized element `exInner`
consistent with `exFb`; re-rendering with the identical inputs returns the
cached element unchanged. -/
theorem claim_C5_cached_render_no_damage_witness :
    exBlur.render exFb 0 ⟨0, 0, 200, 100⟩ ⟨4, 4, 4, 4⟩ 2 ⟨0, 0, 200, 100⟩
        false (0, 0) true 8 14 = (some exInner, exBlur) :=
  (claim_C5_cached_render_no_damage exBlur exFb 0 ⟨0, 0, 200, 100⟩
    ⟨4, 4, 4, 4⟩ 2 ⟨0, 0, 200, 100⟩ false (0, 0) true 8 14 exInner rfl rfl
    (by decide) (by decide) (by decide) rfl rfl rfl rfl rfl (by decide)).1
    (by decide)

open BlurState in
/-- **C6.** With a cached element present, if any of `sample_area`,
`geometry`, `scale`, `corner_radius`, `render_loc` or the effective
requested variant kind differs from the cached values, the element
`Blur::render` returns carries a strictly larger commit counter (full
damage) — in particular a variant switch between Optimized and TrueBlur
increments `commit` even with identical geometry. -/
theorem claim_C6_changed_render_damages (b : BlurState)
    (fx : EffectsFramebuffers) (now : ℚ) (sample_area : IRect)
    (corner_radius : CornerRadius) (scale : ℚ) (geometry : QRect)
    (true_blur : Bool) (render_loc : ℚ × ℚ) (allocOk : Bool)
    (freshId freshTexId : ℕ) (inner0 : BlurRenderElement)
    (hinner : b.inner = some inner0)
    (hon : b.config.enabled = true) (hp : b.config.passes ≠ 0)
    (hrad : b.config.radius ≠ 0) (halloc : allocOk = true)
    (hdiff : inner0.sample_area ≠ sample_area ∨
      inner0.geometry ≠ geometry ∨ inner0.scale ≠ scale ∨
      inner0.corner_radius ≠ corner_radius ∨
      inner0.render_loc ≠ render_loc ∨
      effectiveTrueBlur fx true_blur ≠ inner0.variant.isTrue) :
    ∃ r, (b.render fx now sample_area corner_radius scale geometry true_blur
        render_loc allocOk freshId freshTexId).1 = some r ∧
      inner0.commit < r.commit := by
  by_cases hk : effectiveTrueBlur fx true_blur = inner0.variant.isTrue
  · have heq := render_cached_same_kind b fx now sample_area corner_radius
      scale geometry true_blur render_loc allocOk freshId freshTexId inner0
      hinner hon hp hrad hk
    rw [heq]
    have hne : ¬(inner0.sample_area = sample_area ∧
        inner0.geometry = geometry ∧ inner0.scale = scale ∧
        inner0.corner_radius = corner_radius ∧
        inner0.render_loc = render_loc ∧
        variantNeedsReconfigure inner0.variant fx = false) := by
      rintro ⟨h1, h2, h3, h4, h5, -⟩
      rcases hdiff with h | h | h | h | h | h
      exacts [h h1, h h2, h h3, h h4, h h5, h hk]
    obtain ⟨r, hr, hc⟩ := renderCompare_changed b fx now sample_area
      corner_radius scale geometry render_loc inner0 hne
    exact ⟨r, hr, by omega⟩
  · obtain ⟨v, hmk⟩ : ∃ v, mkVariant b fx (effectiveTrueBlur fx true_blur)
        allocOk freshTexId = some v := by
      cases htb : effectiveTrueBlur fx true_blur
      · exact ⟨_, rfl⟩
      · rw [halloc]
        exact ⟨_, rfl⟩
    have heq := render_cached_switch_kind b fx now sample_area corner_radius
      scale geometry true_blur render_loc allocOk freshId freshTexId inner0
      v hinner hon hp hrad hk hmk
    rw [heq]
    obtain ⟨r, hr, hc⟩ := renderCompare_some_le b fx now sample_area
      corner_radius scale geometry render_loc
      { inner0 with variant := v, commit := inner0.commit + 1 }
    refine ⟨r, hr, ?_⟩
    have hc2 : inner0.commit + 1 ≤ r.commit := hc
    omega

open BlurState in
/-- Witness for C6: re-rendering `exBlur` with a shifted `sample_area`
yields an element whose commit counter exceeds the cached one. -/
theorem claim_C6_changed_render_damages_witness :
    ∃ r, (exBlur.render exFb 0 ⟨1, 0, 200, 100⟩ ⟨4, 4, 4, 4⟩ 2
        ⟨0, 0, 200, 100⟩ false (0, 0) true 8 14).1 = some r ∧
      exInner.commit < r.commit :=
  claim_C6_changed_render_damages exBlur exFb 0 ⟨1, 0, 200, 100⟩
    ⟨4, 4, 4, 4⟩ 2 ⟨0, 0, 200, 100⟩ false (0, 0) true 8 14 exInner rfl rfl
    (by decide) (by decide) rfl (Or.inl (by decide))

end NiriBlur
